import Mathlib

/-!
Shallow embedding of `src/main.py` of AutomatedCameraCapture: the
`UltraRobustCameraCapture.capture` device-probing state machine (lines
536-671) and the filename generator `_generate_filename_safe` (lines
489-534).

External calls (OpenCV device operations, the filesystem) are modelled by
an environment that fixes the outcome of every call a run can make; the
embedded `capture` function replays the Python control flow over that
environment and records a trace of observable events (device open
attempts, handle acquisitions and releases, frame reads, sleeps, image
writes, log lines).
-/

namespace CamCap

/-- Exception classes distinguished by the handlers in `capture`:
`cv2.error`, `MemoryError`, and any other `Exception`. -/
inductive Exc
  | cvErr
  | memErr
  | otherErr
deriving DecidableEq

/-- Outcome of one `cap.read()` call: either it raises an exception, or it
returns a pair `(ret, frame)`; `good` records whether
`frame is not None and frame.size > 0`. -/
inductive ReadOutcome
  | raise (e : Exc)
  | ok (ret : Bool) (good : Bool)
deriving DecidableEq

/-- The test applied to a read in both retry loops of `capture`
(lines 576 and 596): `ret and frame is not None and frame.size > 0`.
A read that raised never passes the test (control jumps to `except`). -/
def goodRead : ReadOutcome → Bool
  | ReadOutcome.ok r g => r && g
  | ReadOutcome.raise _ => false

/-- Observable events of one run of `capture`. -/
inductive Ev
  | logEv (level : String)
  | openAttempt (i : Nat)
  | acquire (i : Nat)
  | release (i : Nat)
  | read (i : Nat)
  | sleep (ms : Nat)
  | write (i : Nat)
deriving DecidableEq

/-- The read-retry loop shared by validation (lines 572-582, sleep 0.1 s)
and the authoritative capture (lines 593-601, sleep 0.05 s): up to
`attempts` reads, stopping at the first read passing the `goodRead` test;
after every failed attempt (including one whose read raised: the bare
`except:` swallows every exception class) the loop sleeps and continues.
`k` is the index of the next read; the result pairs the success flag with
the events emitted. -/
def retryReadGo (reads : Nat → ReadOutcome) (ms i : Nat) : Nat → Nat → Bool × List Ev
  | 0, _ => (false, [])
  | n + 1, k =>
    if goodRead (reads k) then (true, [Ev.read i])
    else
      ((retryReadGo reads ms i n (k + 1)).1,
        Ev.read i :: Ev.sleep ms :: (retryReadGo reads ms i n (k + 1)).2)

/-- Entry point of the read-retry loop, starting at attempt 0. -/
def retryRead (reads : Nat → ReadOutcome) (attempts ms i : Nat) : Bool × List Ev :=
  retryReadGo reads ms i attempts 0

/-- Environment of one device index: the outcomes of every external call
the per-device cycle can make.  `openExc` is an exception raised by
`cv2.VideoCapture(cam_id)` itself (line 559, `cap` stays `None`);
`isOpenedExc` by `cap.isOpened()` (line 562); `opened` is the value
`cap.isOpened()` returns; `setExc` an exception raised by `cap.set`
(line 569); `valReads` and `capReads` give the outcome of the `n`-th read
of the validation and the authoritative capture loop; `writeExc` an
exception raised by `cv2.imwrite` (line 621); `writeSuccess` its return
value; `fileExists` the `os.path.exists` result of line 625; `fileSize`
the `os.path.getsize` result of line 626; `fileExistsAfter` the
`os.path.exists` result of line 636 after the settle sleep. -/
structure DeviceEnv where
  openExc : Option Exc
  isOpenedExc : Option Exc
  opened : Bool
  setExc : Option Exc
  valReads : Nat → ReadOutcome
  capReads : Nat → ReadOutcome
  writeExc : Option Exc
  writeSuccess : Bool
  fileExists : Bool
  fileSize : Nat
  fileExistsAfter : Bool

/-- Result of one per-device cycle: `success` (return `True` at line 637),
`fail` (fall through to the next index), `fatal` (the
`except MemoryError: return False` at lines 657-659). -/
inductive CycleRes
  | success
  | fail
  | fatal
deriving DecidableEq

/-- The outer exception handlers of the per-device `try` (lines 655-668):
`cv2.error` and generic `Exception` log and let the loop continue,
`MemoryError` logs and aborts the run; in every case the `finally` block
releases the handle when `cap` was assigned (`haveCap`). -/
def outerCatch (i : Nat) (e : Exc) (haveCap : Bool) : CycleRes × List Ev :=
  (match e with
    | Exc.memErr => CycleRes.fatal
    | _ => CycleRes.fail,
   Ev.logEv "ERROR" :: if haveCap then [Ev.release i] else [])

/-- Events of an ordinary failure exit of the cycle: the explicit
`cap.release()` on the failing path (line 565, 586, 605 or 653) followed
by the unconditional release of the `finally` block (lines 662-668). -/
def failTail (i : Nat) : List Ev := [Ev.release i, Ev.release i]

/-- `if file_size > 100` at line 627: minimum acceptable file size. -/
def minFileSize : Nat := 100

/-- One iteration of the `for cam_id in range(max_cameras)` loop of
`capture` (lines 550-668), replayed over the device environment `d` for
index `i`: log, open, `isOpened` check, `cap.set`, validation loop,
settle sleep, authoritative capture loop, filename/write, post-write
verification, with the outer exception handlers and the `finally`
release. -/
def deviceCycle (d : DeviceEnv) (i : Nat) : CycleRes × List Ev :=
  match d.openExc with
  | some e =>
    ((outerCatch i e false).1,
      Ev.logEv "DEBUG" :: Ev.openAttempt i :: (outerCatch i e false).2)
  | none =>
  match d.isOpenedExc with
  | some e =>
    ((outerCatch i e true).1,
      [Ev.logEv "DEBUG", Ev.openAttempt i, Ev.acquire i] ++ (outerCatch i e true).2)
  | none =>
  if d.opened = false then
    (CycleRes.fail,
      [Ev.logEv "DEBUG", Ev.openAttempt i, Ev.acquire i, Ev.logEv "DEBUG"] ++ failTail i)
  else
  match d.setExc with
  | some e =>
    ((outerCatch i e true).1,
      [Ev.logEv "DEBUG", Ev.openAttempt i, Ev.acquire i] ++ (outerCatch i e true).2)
  | none =>
  if (retryRead d.valReads 3 100 i).1 = false then
    (CycleRes.fail,
      [Ev.logEv "DEBUG", Ev.openAttempt i, Ev.acquire i] ++ (retryRead d.valReads 3 100 i).2
        ++ [Ev.logEv "DEBUG"] ++ failTail i)
  else
  if (retryRead d.capReads 3 50 i).1 = false then
    (CycleRes.fail,
      [Ev.logEv "DEBUG", Ev.openAttempt i, Ev.acquire i] ++ (retryRead d.valReads 3 100 i).2
        ++ [Ev.sleep 100] ++ (retryRead d.capReads 3 50 i).2
        ++ [Ev.logEv "DEBUG"] ++ failTail i)
  else
  match d.writeExc with
  | some _ =>
    (CycleRes.fail,
      [Ev.logEv "DEBUG", Ev.openAttempt i, Ev.acquire i] ++ (retryRead d.valReads 3 100 i).2
        ++ [Ev.sleep 100] ++ (retryRead d.capReads 3 50 i).2
        ++ [Ev.write i, Ev.logEv "ERROR"] ++ failTail i)
  | none =>
  if d.writeSuccess = false then
    (CycleRes.fail,
      [Ev.logEv "DEBUG", Ev.openAttempt i, Ev.acquire i] ++ (retryRead d.valReads 3 100 i).2
        ++ [Ev.sleep 100] ++ (retryRead d.capReads 3 50 i).2
        ++ [Ev.write i, Ev.logEv "ERROR"] ++ failTail i)
  else if d.fileExists = false then
    (CycleRes.fail,
      [Ev.logEv "DEBUG", Ev.openAttempt i, Ev.acquire i] ++ (retryRead d.valReads 3 100 i).2
        ++ [Ev.sleep 100] ++ (retryRead d.capReads 3 50 i).2
        ++ [Ev.write i, Ev.logEv "ERROR"] ++ failTail i)
  else if d.fileSize ≤ minFileSize then
    (CycleRes.fail,
      [Ev.logEv "DEBUG", Ev.openAttempt i, Ev.acquire i] ++ (retryRead d.valReads 3 100 i).2
        ++ [Ev.sleep 100] ++ (retryRead d.capReads 3 50 i).2
        ++ [Ev.write i, Ev.logEv "WARNING"] ++ failTail i)
  else if d.fileExistsAfter then
    (CycleRes.success,
      [Ev.logEv "DEBUG", Ev.openAttempt i, Ev.acquire i] ++ (retryRead d.valReads 3 100 i).2
        ++ [Ev.sleep 100] ++ (retryRead d.capReads 3 50 i).2
        ++ [Ev.write i, Ev.logEv "SUCCESS", Ev.release i, Ev.sleep 100, Ev.release i])
  else
    (CycleRes.fail,
      [Ev.logEv "DEBUG", Ev.openAttempt i, Ev.acquire i] ++ (retryRead d.valReads 3 100 i).2
        ++ [Ev.sleep 100] ++ (retryRead d.capReads 3 50 i).2
        ++ [Ev.write i, Ev.logEv "SUCCESS", Ev.release i, Ev.sleep 100, Ev.logEv "WARNING"]
        ++ failTail i)

/-- `max_cameras = 5` at line 547. -/
def maxCameras : Nat := 5

/-- The `for cam_id in range(max_cameras)` loop (lines 550-671) with `n`
remaining indices starting at index `i`: a successful cycle returns
`True`; a fatal cycle returns `False` at once; a failed cycle continues
with the next index; exhaustion logs the final warning of line 670 and
returns `False`. -/
def captureLoopAux (devs : Nat → DeviceEnv) : Nat → Nat → Bool × List Ev
  | 0, _ => (false, [Ev.logEv "WARNING"])
  | n + 1, i =>
    match (deviceCycle (devs i) i).1 with
    | CycleRes.success => (true, (deviceCycle (devs i) i).2)
    | CycleRes.fatal => (false, (deviceCycle (devs i) i).2)
    | CycleRes.fail =>
      ((captureLoopAux devs n (i + 1)).1,
        (deviceCycle (devs i) i).2 ++ (captureLoopAux devs n (i + 1)).2)

/-- Environment of one run: whether OpenCV is available
(`self.modules_available.get('cv2')` and `self.cv2`, line 541), and the
environment of each device index. -/
structure CaptureEnv where
  cv2Available : Bool
  devs : Nat → DeviceEnv

/-- `UltraRobustCameraCapture.capture` (lines 536-671): logs the start
message, returns `False` at once when OpenCV is unavailable (lines
541-544), and otherwise runs the probing loop over `max_cameras`
indices. -/
def capture (env : CaptureEnv) : Bool × List Ev :=
  if env.cv2Available = false then
    (false, [Ev.logEv "INFO", Ev.logEv "ERROR", Ev.logEv "INFO"])
  else
    ((captureLoopAux env.devs maxCameras 0).1,
      Ev.logEv "INFO" :: (captureLoopAux env.devs maxCameras 0).2)

/-- True exactly on device-open attempts (`cv2.VideoCapture(cam_id)`). -/
def isOpenAtt : Ev → Bool
  | Ev.openAttempt _ => true
  | Ev.logEv _ => false
  | Ev.acquire _ => false
  | Ev.release _ => false
  | Ev.read _ => false
  | Ev.sleep _ => false
  | Ev.write _ => false

/-- Number of `cv2.VideoCapture` open attempts in a trace. -/
def openAttempts (tr : List Ev) : Nat := tr.countP isOpenAtt

/-- Number of currently open device handles after one event, starting
from `n`: acquiring a handle opens one, releasing closes one (releasing
with none open is a no-op, as `cv2.VideoCapture.release` is idempotent). -/
def evDelta (n : Nat) : Ev → Nat
  | Ev.acquire _ => n + 1
  | Ev.release _ => n - 1
  | Ev.logEv _ => n
  | Ev.openAttempt _ => n
  | Ev.read _ => n
  | Ev.sleep _ => n
  | Ev.write _ => n

/-- Number of open device handles after a whole trace, starting from `n`. -/
def countFrom (n : Nat) : List Ev → Nat
  | [] => n
  | e :: tr => countFrom (evDelta n e) tr

/-- Checks, along a trace starting with `n` open handles, that every
open attempt and every acquisition happens with no handle currently
open. Together with `countFrom n tr = 0` this is the no-leak discipline:
at most one handle is ever open, and each is released before the next
index is tried. -/
def evGuard (n : Nat) : Ev → Bool
  | Ev.openAttempt _ => n == 0
  | Ev.acquire _ => n == 0
  | Ev.logEv _ => true
  | Ev.release _ => true
  | Ev.read _ => true
  | Ev.sleep _ => true
  | Ev.write _ => true

def segOk : Nat → List Ev → Bool
  | _, [] => true
  | n, e :: tr => evGuard n e && segOk (evDelta n e) tr

/-- Number of reads in a trace. -/
def isReadEv : Ev → Bool
  | Ev.read _ => true
  | Ev.logEv _ => false
  | Ev.openAttempt _ => false
  | Ev.acquire _ => false
  | Ev.release _ => false
  | Ev.sleep _ => false
  | Ev.write _ => false

def readCount (tr : List Ev) : Nat := tr.countP isReadEv

/-- Number of `release` events for device index `i` in a trace. -/
def releaseCount (i : Nat) (tr : List Ev) : Nat :=
  tr.countP fun e => decide (e = Ev.release i)

/-- Modelled from the spec: `release(device)` closes/frees the camera
device handle. The underlying call, `cv2.VideoCapture.release`, is an
external library function whose code is not in this repository; the spec
contract (section 4.1) states it closes the device, is idempotent and
never propagates an error, so it is embedded as the total function that
marks the handle closed. -/
def releaseDev : Bool → Bool := fun _ => false

/-- The characters replaced by `_` in `_generate_filename_safe`
(line 519): `invalid_chars = '<>:"/\\|?*\n\r\t\0'`. -/
def invalidChars : List Char :=
  ['<', '>', ':', '"', '/', '\\', '|', '?', '*', '\n', '\r', '\t', '\x00']

/-- One step of the sanitisation loop of lines 520-521: each invalid
character is replaced by an underscore. Applying
`filename.replace(char, "_")` once per invalid character equals a single
character map, since the replacement `_` is not itself invalid. -/
def sanitizeChar (c : Char) : Char := if c ∈ invalidChars then '_' else c

/-- The whole sanitisation loop of lines 519-521. -/
def sanitizeName (l : List Char) : List Char := l.map sanitizeChar

/-- The image file extension appended at line 516. -/
def jpgExt : List Char := ['.', 'j', 'p', 'g']

/-- `os.path.splitext` (line 526) on a name containing no path
separators: split at the last dot, except that a name whose characters
before the last dot are all dots has no extension (CPython
`genericpath._splitext`). The extension includes the dot. -/
def splitextChars (l : List Char) : List Char × List Char :=
  match l.reverse.dropWhile (fun c => !(c == '.')) with
  | [] => (l, [])
  | _ :: beforeRev =>
    if beforeRev.all (fun c => c == '.') then (l, [])
    else (beforeRev.reverse, '.' :: (l.reverse.takeWhile (fun c => !(c == '.'))).reverse)

/-- `_generate_filename_safe` (lines 489-534) on its non-exception path,
over the identity fields and the strftime timestamp it reads: components
are included only when non-empty and different from the default value
(lines 506-511, with the truncations `[:30]`/`[:20]`/`[:20]`), joined
with underscores and suffixed `.jpg` (line 516), sanitised (lines
519-521), and truncated via `splitext` to at most 200 characters
(lines 524-527). -/
def filenameComponents (hostname mac username timestamp : List Char) : List (List Char) :=
  (if hostname ≠ [] ∧ hostname ≠ "unknown_host".data then [hostname.take 30] else [])
    ++ (if mac ≠ [] ∧ mac ≠ "unknown-mac".data then [mac.take 20] else [])
    ++ (if username ≠ [] ∧ username ≠ "unknown_user".data then [username.take 20] else [])
    ++ [timestamp]

/-- The filename of line 516 after the sanitisation loop of lines
519-521, before the length check. -/
def rawFilename (hostname mac username timestamp : List Char) : List Char :=
  sanitizeName
    (List.intercalate ['_'] (filenameComponents hostname mac username timestamp) ++ jpgExt)

def generateFilenameChars (hostname mac username timestamp : List Char) : List Char :=
  if 200 < (rawFilename hostname mac username timestamp).length then
    (splitextChars (rawFilename hostname mac username timestamp)).1.take
        (200 - (splitextChars (rawFilename hostname mac username timestamp)).2.length)
      ++ (splitextChars (rawFilename hostname mac username timestamp)).2
  else rawFilename hostname mac username timestamp

/-- String-level wrapper of the filename generator. -/
def generateFilenameSafe (hostname mac username timestamp : String) : String :=
  String.mk (generateFilenameChars hostname.data mac.data username.data timestamp.data)

/-- A path-separator character (forbidden by the spec contract for
generated filenames). -/
def isPathSep (c : Char) : Bool := c == '/' || c == '\\'

/-- A control character (forbidden by the spec contract for generated
filenames): C0 controls and DEL. -/
def isCtrlChar (c : Char) : Bool := decide (c.toNat < 32) || decide (c.toNat = 127)

/-- A strftime `%Y%m%d_%H%M%S` timestamp character (line 493): every
character of the timestamp the code actually passes is a digit or an
underscore. -/
def tsChar (c : Char) : Bool := c.isDigit || c == '_'

/-- A read that returns `(False, None)`: a plain failed read. -/
def badRead : Nat → ReadOutcome := fun _ => ReadOutcome.ok false false

/-- A read that returns a successful non-empty frame. -/
def goodReads : Nat → ReadOutcome := fun _ => ReadOutcome.ok true true

/-- A device whose `cv2.VideoCapture` call yields a handle with
`isOpened() == False`: the ordinary no-camera-at-this-index case. -/
def devFailOpen : DeviceEnv :=
  ⟨none, none, false, none, badRead, badRead, none, false, false, 0, false⟩

/-- A fully working device: opens, validates on the first read, captures
on the first read, writes successfully, and the 5000-byte file is present
at both post-write checks. -/
def devGood : DeviceEnv :=
  ⟨none, none, true, none, goodReads, goodReads, none, true, true, 5000, true⟩

/-- A device whose validation reads fail twice and succeed on the third
attempt, and which then behaves like `devGood`. -/
def devValThird : DeviceEnv :=
  ⟨none, none, true, none,
    (fun k => if k < 2 then ReadOutcome.ok false false else ReadOutcome.ok true true),
    goodReads, none, true, true, 5000, true⟩

/-- A device that opens and validates but whose every authoritative
capture read raises `MemoryError`: the reads sit inside the bare
`except:` of the retry loop at lines 599-601. -/
def devMemRead : DeviceEnv :=
  ⟨none, none, true, none, goodReads,
    (fun _ => ReadOutcome.raise Exc.memErr), none, false, false, 0, false⟩

/-- A device whose `cv2.VideoCapture` call itself raises `MemoryError`. -/
def devMemOpen : DeviceEnv :=
  ⟨some Exc.memErr, none, false, none, badRead, badRead, none, false, false, 0, false⟩

/-- A device that opens, validates and captures, but whose
`cv2.imwrite` call raises a non-`cv2.error` exception (for example a
permission error). -/
def devWriteErr : DeviceEnv :=
  ⟨none, none, true, none, goodReads, goodReads, some Exc.otherErr, false, false, 0, false⟩

/-- A device whose write reports success but leaves only a 40-byte file
on disk. -/
def devSmallFile : DeviceEnv :=
  ⟨none, none, true, none, goodReads, goodReads, none, true, true, 40, true⟩

/-- Run environment: OpenCV available, no camera at any index. -/
def envAllFail : CaptureEnv := ⟨true, fun _ => devFailOpen⟩

/-- Run environment of end-to-end scenario D as the code actually plays
it: device 0 absent, device 1 opens and validates but every authoritative
read raises `MemoryError`, devices 2-4 absent. -/
def envMemRead : CaptureEnv := ⟨true, fun j => if j = 1 then devMemRead else devFailOpen⟩

/-- Run environment of end-to-end scenario C: device 0 opens, validates
and captures but the write raises a permission error; no other camera. -/
def envWriteErr : CaptureEnv := ⟨true, fun j => if j = 0 then devWriteErr else devFailOpen⟩

/-- Run environment with a working camera at index 2. -/
def envGoodAt2 : CaptureEnv := ⟨true, fun j => if j = 2 then devGood else devFailOpen⟩

/-- A device that opens and validates but whose every authoritative
capture read returns a plain failure. -/
def devCapFail : DeviceEnv :=
  ⟨none, none, true, none, goodReads, badRead, none, false, false, 0, false⟩

/-- A device whose `cv2.VideoCapture` call raises a non-`MemoryError`
exception (for example a permission error from the driver). -/
def devOpenErr : DeviceEnv :=
  ⟨some Exc.otherErr, none, false, none, badRead, badRead, none, false, false, 0, false⟩

/-- Run environment whose device 0 open call raises `MemoryError`. -/
def envMemAt0 : CaptureEnv := ⟨true, fun _ => devMemOpen⟩

/-- Validation reads failing twice and succeeding on the third attempt. -/
def valThirdReads : Nat → ReadOutcome :=
  fun k => if k < 2 then ReadOutcome.ok false false else ReadOutcome.ok true true

/-- Events that neither open nor close a device handle and are not open
attempts: reads, sleeps, writes and log lines. -/
def neutralEv : Ev → Bool
  | Ev.openAttempt _ => false
  | Ev.acquire _ => false
  | Ev.release _ => false
  | Ev.logEv _ => true
  | Ev.read _ => true
  | Ev.sleep _ => true
  | Ev.write _ => true

theorem countFrom_append (a b : List Ev) (n : Nat) :
    countFrom n (a ++ b) = countFrom (countFrom n a) b := by
  induction a generalizing n with
  | nil => rfl
  | cons e tl ih => simp [countFrom, ih]

theorem segOk_append (a b : List Ev) (n : Nat) :
    segOk n (a ++ b) = (segOk n a && segOk (countFrom n a) b) := by
  induction a generalizing n with
  | nil => rfl
  | cons e tl ih => simp [segOk, countFrom, ih, Bool.and_assoc]

theorem countFrom_neutral (tr : List Ev) (n : Nat) (h : tr.all neutralEv = true) :
    countFrom n tr = n := by
  induction tr generalizing n with
  | nil => rfl
  | cons e tl ih =>
    rw [List.all_cons, Bool.and_eq_true] at h
    cases e <;> first
      | simpa [countFrom, evDelta] using ih _ h.2
      | simp [neutralEv] at h

theorem segOk_neutral (tr : List Ev) (n : Nat) (h : tr.all neutralEv = true) :
    segOk n tr = true := by
  induction tr generalizing n with
  | nil => rfl
  | cons e tl ih =>
    rw [List.all_cons, Bool.and_eq_true] at h
    cases e <;> first
      | simpa [segOk, evDelta, evGuard] using ih _ h.2
      | simp [neutralEv] at h

theorem retryReadGo_neutral (reads : Nat → ReadOutcome) (ms i : Nat) :
    ∀ A k, ((retryReadGo reads ms i A k).2).all neutralEv = true := by
  intro A
  induction A with
  | zero => intro k; rfl
  | succ n ih =>
    intro k
    by_cases h : goodRead (reads k) = true
    · simp [retryReadGo, h, neutralEv]
    · simp only [retryReadGo, h, if_false, Bool.false_eq_true]
      simp [neutralEv, ih]

theorem countFrom_retryRead (reads : Nat → ReadOutcome) (a ms i n : Nat) :
    countFrom n (retryRead reads a ms i).2 = n :=
  countFrom_neutral _ _ (retryReadGo_neutral reads ms i a 0)

theorem segOk_retryRead (reads : Nat → ReadOutcome) (a ms i n : Nat) :
    segOk n (retryRead reads a ms i).2 = true :=
  segOk_neutral _ _ (retryReadGo_neutral reads ms i a 0)

theorem outerCatch_ne_success (i : Nat) (e : Exc) (b : Bool) :
    (outerCatch i e b).1 ≠ CycleRes.success := by
  cases e <;> simp [outerCatch]

/-- Every per-device cycle ends with no open handle: the `finally` block
of lines 662-668 releases unconditionally on every control path. -/
theorem deviceCycle_closed (d : DeviceEnv) (i : Nat) :
    countFrom 0 (deviceCycle d i).2 = 0 := by
  unfold deviceCycle
  repeat' split
  all_goals
    simp [outerCatch, failTail, countFrom_append, countFrom_retryRead, countFrom, evDelta]

/-- Every per-device cycle respects the handle discipline: each open
attempt and each acquisition happens with no handle open. -/
theorem deviceCycle_segOk (d : DeviceEnv) (i : Nat) :
    segOk 0 (deviceCycle d i).2 = true := by
  unfold deviceCycle
  repeat' split
  all_goals
    simp [outerCatch, failTail, segOk_append, segOk_retryRead, countFrom_append,
      countFrom_retryRead, segOk, countFrom, evDelta, evGuard]

/-- A cycle only returns `success` when `cv2.imwrite` reported success,
the file existed at line 625, its size exceeded the 100-byte minimum at
line 627, and the file still existed at the re-check of line 636. -/
theorem deviceCycle_success_fields (d : DeviceEnv) (i : Nat)
    (h : (deviceCycle d i).1 = CycleRes.success) :
    d.writeSuccess = true ∧ d.fileExists = true ∧ minFileSize < d.fileSize
      ∧ d.fileExistsAfter = true := by
  unfold deviceCycle at h
  repeat' split at h
  all_goals simp_all [outerCatch_ne_success]

/-- A failed cycle makes the orchestrator advance to the next index. -/
theorem loop_advance (devs : Nat → DeviceEnv) (n i : Nat)
    (h : (deviceCycle (devs i) i).1 = CycleRes.fail) :
    captureLoopAux devs (n + 1) i =
      ((captureLoopAux devs n (i + 1)).1,
        (deviceCycle (devs i) i).2 ++ (captureLoopAux devs n (i + 1)).2) := by
  simp [captureLoopAux, h]

/-- The probing loop reports `true` only when some cycle in range
succeeded. -/
theorem loop_true_exists (devs : Nat → DeviceEnv) :
    ∀ n i, (captureLoopAux devs n i).1 = true →
      ∃ j, i ≤ j ∧ j < i + n ∧ (deviceCycle (devs j) j).1 = CycleRes.success := by
  intro n
  induction n with
  | zero => intro i h; exact absurd h (by simp [captureLoopAux])
  | succ m ih =>
    intro i h
    unfold captureLoopAux at h
    split at h
    · exact ⟨i, le_refl i, by omega, by assumption⟩
    · exact absurd h (by simp)
    · obtain ⟨j, hj1, hj2, hj3⟩ := ih (i + 1) h
      exact ⟨j, by omega, by omega, hj3⟩

/-- The whole probing loop keeps the handle discipline and ends with no
open handle. -/
theorem loop_handleOk (devs : Nat → DeviceEnv) :
    ∀ n i, segOk 0 (captureLoopAux devs n i).2 = true
      ∧ countFrom 0 (captureLoopAux devs n i).2 = 0 := by
  intro n
  induction n with
  | zero => intro i; exact ⟨rfl, rfl⟩
  | succ m ih =>
    intro i
    unfold captureLoopAux
    split
    · exact ⟨deviceCycle_segOk (devs i) i, deviceCycle_closed (devs i) i⟩
    · exact ⟨deviceCycle_segOk (devs i) i, deviceCycle_closed (devs i) i⟩
    · constructor
      · show segOk 0 ((deviceCycle (devs i) i).2 ++ (captureLoopAux devs m (i + 1)).2) = true
        rw [segOk_append, deviceCycle_closed, Bool.and_eq_true]
        exact ⟨deviceCycle_segOk (devs i) i, (ih (i + 1)).1⟩
      · show countFrom 0 ((deviceCycle (devs i) i).2 ++ (captureLoopAux devs m (i + 1)).2) = 0
        rw [countFrom_append, deviceCycle_closed]
        exact (ih (i + 1)).2

/-- Handle discipline of a whole run. -/
theorem capture_handleOk (env : CaptureEnv) :
    segOk 0 (capture env).2 = true ∧ countFrom 0 (capture env).2 = 0 := by
  unfold capture
  split
  · exact ⟨rfl, rfl⟩
  · constructor
    · show segOk 0 (Ev.logEv "INFO" :: (captureLoopAux env.devs maxCameras 0).2) = true
      rw [segOk, Bool.and_eq_true]
      exact ⟨rfl, (loop_handleOk env.devs maxCameras 0).1⟩
    · show countFrom 0 (Ev.logEv "INFO" :: (captureLoopAux env.devs maxCameras 0).2) = 0
      exact (loop_handleOk env.devs maxCameras 0).2

/-- From the handle discipline: every prefix of the trace has at most one
open handle. -/
theorem segOk_le_one (p : List Ev) :
    ∀ s n, segOk n (p ++ s) = true → n ≤ 1 → countFrom n p ≤ 1 := by
  induction p with
  | nil => intro s n _ h1; exact h1
  | cons e tl ih =>
    intro s n hs h1
    rw [List.cons_append, segOk, Bool.and_eq_true] at hs
    have hd : evDelta n e ≤ 1 := by
      cases e with
      | acquire j =>
        have h0 : n = 0 := by simpa [evGuard] using hs.1
        simp [evDelta, h0]
      | release j => simp only [evDelta]; omega
      | logEv s2 => simpa [evDelta] using h1
      | openAttempt j => simpa [evDelta] using h1
      | read j => simpa [evDelta] using h1
      | sleep m => simpa [evDelta] using h1
      | write j => simpa [evDelta] using h1
    exact ih s (evDelta n e) hs.2 hd

/-- From the handle discipline: at each open attempt, no handle is open. -/
theorem segOk_openAtt_zero (p : List Ev) :
    ∀ s n i, segOk n (p ++ Ev.openAttempt i :: s) = true → countFrom n p = 0 := by
  induction p with
  | nil =>
    intro s n i h
    rw [List.nil_append, segOk, Bool.and_eq_true] at h
    simpa [evGuard] using h.1
  | cons e tl ih =>
    intro s n i h
    rw [List.cons_append, segOk, Bool.and_eq_true] at h
    exact ih s (evDelta n e) i h.2

/-- The cycle of a device whose handle reports `isOpened() == False`:
log, release (line 565), `continue`, and the `finally` release. -/
theorem deviceCycle_failOpen (d : DeviceEnv) (i : Nat)
    (h1 : d.openExc = none) (h2 : d.isOpenedExc = none) (h3 : d.opened = false) :
    deviceCycle d i =
      (CycleRes.fail,
        [Ev.logEv "DEBUG", Ev.openAttempt i, Ev.acquire i, Ev.logEv "DEBUG",
          Ev.release i, Ev.release i]) := by
  unfold deviceCycle
  rw [h1, h2]
  simp [h3, failTail]

/-- Counting open attempts distributes over trace concatenation. -/
theorem openAttempts_append (a b : List Ev) :
    openAttempts (a ++ b) = openAttempts a + openAttempts b :=
  List.countP_append _ _ _

/-- If every device in range fails to open, the loop returns `false`,
makes one open attempt per index, and leaves no handle open. -/
theorem loop_allFail (devs : Nat → DeviceEnv) :
    ∀ n i, (∀ j, i ≤ j → j < i + n →
        (devs j).openExc = none ∧ (devs j).isOpenedExc = none ∧ (devs j).opened = false) →
      (captureLoopAux devs n i).1 = false
        ∧ openAttempts (captureLoopAux devs n i).2 = n
        ∧ countFrom 0 (captureLoopAux devs n i).2 = 0 := by
  intro n
  induction n with
  | zero => intro i _; refine ⟨rfl, by simp [captureLoopAux, openAttempts, isOpenAtt], rfl⟩
  | succ m ih =>
    intro i h
    have hi := h i (le_refl i) (by omega)
    have hcyc := deviceCycle_failOpen (devs i) i hi.1 hi.2.1 hi.2.2
    have ihm := ih (i + 1) (fun j hj1 hj2 => h j (by omega) (by omega))
    rw [captureLoopAux, hcyc]
    refine ⟨ihm.1, ?_, ?_⟩
    · rw [openAttempts_append, ihm.2.1]
      simp [openAttempts, isOpenAtt, List.countP_cons]
      omega
    · rw [countFrom_append]
      have : countFrom 0
          [Ev.logEv "DEBUG", Ev.openAttempt i, Ev.acquire i, Ev.logEv "DEBUG",
            Ev.release i, Ev.release i] = 0 := rfl
      rw [this, ihm.2.2]

/-- Reachability of the post-write verification: when the cycle gets to
a successful write whose file is missing or at most 100 bytes, the
result is failure (lines 640-643), not success. -/
theorem deviceCycle_verifyFail (d : DeviceEnv) (i : Nat)
    (h1 : d.openExc = none) (h2 : d.isOpenedExc = none) (h3 : d.opened = true)
    (h4 : d.setExc = none) (h5 : (retryRead d.valReads 3 100 i).1 = true)
    (h6 : (retryRead d.capReads 3 50 i).1 = true) (h7 : d.writeExc = none)
    (h8 : d.writeSuccess = true)
    (h9 : d.fileExists = false ∨ d.fileSize ≤ minFileSize) :
    (deviceCycle d i).1 = CycleRes.fail := by
  unfold deviceCycle
  rw [h1, h2, h4, h7]
  rcases h9 with h9 | h9
  · simp [h3, h5, h6, h8, h9]
  · by_cases hf : d.fileExists = false
    · simp [h3, h5, h6, h8, hf]
    · simp [h3, h5, h6, h8, hf, h9]

/-- A validated device whose authoritative capture loop fails on every
attempt is abandoned: the cycle fails (lines 603-606). -/
theorem deviceCycle_capFail (d : DeviceEnv) (i : Nat)
    (h1 : d.openExc = none) (h2 : d.isOpenedExc = none) (h3 : d.opened = true)
    (h4 : d.setExc = none) (h5 : (retryRead d.valReads 3 100 i).1 = true)
    (h6 : (retryRead d.capReads 3 50 i).1 = false) :
    (deviceCycle d i).1 = CycleRes.fail := by
  unfold deviceCycle
  rw [h1, h2, h4]
  simp [h3, h5, h6]

/-- An exception raised by the write call is caught (lines 647-650),
logged, and turns into that device failure. -/
theorem deviceCycle_writeExc (d : DeviceEnv) (i : Nat) (e : Exc)
    (h1 : d.openExc = none) (h2 : d.isOpenedExc = none) (h3 : d.opened = true)
    (h4 : d.setExc = none) (h5 : (retryRead d.valReads 3 100 i).1 = true)
    (h6 : (retryRead d.capReads 3 50 i).1 = true) (h7 : d.writeExc = some e) :
    (deviceCycle d i).1 = CycleRes.fail
      ∧ Ev.logEv "ERROR" ∈ (deviceCycle d i).2 := by
  unfold deviceCycle
  rw [h1, h2, h4, h7]
  simp [h3, h5, h6]

/-- A non-`MemoryError` exception raised while opening the device is
caught by the handlers at lines 655-661, logged, and turns into that
device failure. -/
theorem deviceCycle_openExc (d : DeviceEnv) (i : Nat) (e : Exc)
    (h1 : d.openExc = some e) (hne : e ≠ Exc.memErr) :
    (deviceCycle d i).1 = CycleRes.fail
      ∧ Ev.logEv "ERROR" ∈ (deviceCycle d i).2 := by
  unfold deviceCycle
  rw [h1]
  cases e with
  | cvErr => simp [outerCatch]
  | memErr => exact absurd rfl hne
  | otherErr => simp [outerCatch]

/-- The retry loop performs at most as many reads as it has attempts. -/
theorem retryReadGo_count (reads : Nat → ReadOutcome) (ms i : Nat) :
    ∀ A k, readCount (retryReadGo reads ms i A k).2 ≤ A := by
  intro A
  induction A with
  | zero => intro k; simp [retryReadGo, readCount]
  | succ n ih =>
    intro k
    by_cases h : goodRead (reads k) = true
    · simp [retryReadGo, h, readCount, List.countP_cons, isReadEv]
    · have hle := ih (k + 1)
      rw [retryReadGo, if_neg h]
      show readCount (Ev.read i :: Ev.sleep ms :: (retryReadGo reads ms i n (k + 1)).2) ≤ n + 1
      simp [readCount, List.countP_cons, isReadEv] at hle ⊢
      omega

/-- The retry loop short-circuits: a first read returning a good frame
ends the loop at once with a single read event. -/
theorem retryRead_first (reads : Nat → ReadOutcome) (A ms i : Nat)
    (hA : 0 < A) (h : goodRead (reads 0) = true) :
    retryRead reads A ms i = (true, [Ev.read i]) := by
  obtain ⟨m, rfl⟩ : ∃ m, A = m + 1 := ⟨A - 1, by omega⟩
  simp [retryRead, retryReadGo, h]

/-- A device whose reads fail on the first `A - 1` attempts and return a
good frame on attempt `A` makes the retry loop succeed, with a sleep
between consecutive reads. -/
theorem retryReadGo_lastGood (reads : Nat → ReadOutcome) (ms i : Nat) :
    ∀ A k, 0 < A → (∀ j, j < A - 1 → goodRead (reads (k + j)) = false) →
      goodRead (reads (k + (A - 1))) = true →
      retryReadGo reads ms i A k =
        (true, (List.replicate (A - 1) [Ev.read i, Ev.sleep ms]).flatten ++ [Ev.read i]) := by
  intro A
  induction A with
  | zero => intro k h0; exact absurd h0 (by omega)
  | succ n ih =>
    intro k _ hfail hgood
    cases n with
    | zero =>
      have hg : goodRead (reads k) = true := by simpa using hgood
      simp [retryReadGo, hg]
    | succ m =>
      have hk : goodRead (reads k) = false := by
        have := hfail 0 (by omega)
        simpa using this
      have hfail2 : ∀ j, j < (m + 1) - 1 → goodRead (reads ((k + 1) + j)) = false := by
        intro j hj
        have hr : (k + 1) + j = k + (j + 1) := by omega
        rw [hr]
        exact hfail (j + 1) (by omega)
      have hgood2 : goodRead (reads ((k + 1) + ((m + 1) - 1))) = true := by
        have hr : (k + 1) + ((m + 1) - 1) = k + ((m + 1 + 1) - 1) := by omega
        rw [hr]
        exact hgood
      have hrec := ih (k + 1) (by omega) hfail2 hgood2
      rw [retryReadGo, if_neg (by simp [hk]), hrec]
      simp [List.replicate_succ]

/-- In a trace of neutral events there is no release. -/
theorem releaseCount_neutral (tr : List Ev) (i : Nat) (h : tr.all neutralEv = true) :
    releaseCount i tr = 0 := by
  induction tr with
  | nil => rfl
  | cons e tl ih =>
    rw [List.all_cons, Bool.and_eq_true] at h
    have ht := ih h.2
    simp only [releaseCount, List.countP_cons] at ht ⊢
    rw [ht]
    cases e with
    | release j => exact absurd h.1 (by simp [neutralEv])
    | logEv s => simp
    | openAttempt j => simp
    | acquire j => simp
    | read j => simp
    | sleep m => simp
    | write j => simp

/-- On the success path the device handle is released twice: the explicit
release of line 631 and the unconditional release of the `finally` block
at line 666. -/
theorem deviceCycle_success_two_releases (d : DeviceEnv) (i : Nat)
    (h : (deviceCycle d i).1 = CycleRes.success) :
    2 ≤ releaseCount i (deviceCycle d i).2 := by
  unfold deviceCycle at h ⊢
  repeat' split
  all_goals simp_all [outerCatch_ne_success, releaseCount, List.countP_append,
    List.countP_cons]
  all_goals omega

/-- Sanitisation distributes over concatenation. -/
theorem sanitizeName_append (a b : List Char) :
    sanitizeName (a ++ b) = sanitizeName a ++ sanitizeName b := List.map_append _ _ _

/-- The `.jpg` extension is untouched by sanitisation. -/
theorem sanitizeName_jpgExt : sanitizeName jpgExt = jpgExt := by decide

/-- No character of a sanitised name is in the invalid set. -/
theorem mem_sanitizeName_not_invalid (l : List Char) (c : Char)
    (h : c ∈ sanitizeName l) : c ∉ invalidChars := by
  rw [sanitizeName, List.mem_map] at h
  obtain ⟨x, _, rfl⟩ := h
  by_cases hx : x ∈ invalidChars
  · rw [sanitizeChar, if_pos hx]; decide
  · rw [sanitizeChar, if_neg hx]; exact hx

/-- The sanitised filename decomposes as sanitised body plus `.jpg`. -/
theorem rawFilename_eq (hostname mac username timestamp : List Char) :
    rawFilename hostname mac username timestamp =
      sanitizeName (List.intercalate ['_'] (filenameComponents hostname mac username timestamp))
        ++ jpgExt := by
  rw [rawFilename, sanitizeName_append, sanitizeName_jpgExt]

/-- `os.path.splitext` on a name ending in `.jpg` whose body is not all
dots returns the body and the `.jpg` extension. -/
theorem splitextChars_jpg (x : List Char) (hx : x.all (fun c => c == '.') = false) :
    splitextChars (x ++ jpgExt) = (x, jpgExt) := by
  have h1 : (x ++ jpgExt).reverse = 'g' :: 'p' :: 'j' :: '.' :: x.reverse := by
    simp [jpgExt]
  have h2 : List.dropWhile (fun c => !(c == '.')) ('g' :: 'p' :: 'j' :: '.' :: x.reverse)
      = '.' :: x.reverse := rfl
  have h3 : List.takeWhile (fun c => !(c == '.')) ('g' :: 'p' :: 'j' :: '.' :: x.reverse)
      = ['g', 'p', 'j'] := rfl
  unfold splitextChars
  rw [h1, h2, h3]
  have h4 : (x.reverse.all fun c => c == '.') = false := by
    rw [List.all_reverse]; exact hx
  simp [h4, jpgExt]

/-- A character of a witness makes `all (== dot)` false. -/
theorem all_dots_false_of_mem (l : List Char) (c : Char) (hc : c ∈ l)
    (hne : (c == '.') = false) : (l.all fun x => x == '.') = false := by
  rw [List.all_eq_false]
  exact ⟨c, hc, by simp [hne]⟩

/-- A strftime character is not a dot and is untouched by sanitisation. -/
theorem tsChar_props (c : Char) (h : tsChar c = true) :
    (c == '.') = false ∧ sanitizeChar c = c := by
  have hninv : c ∉ invalidChars := by
    intro hmem
    simp only [invalidChars, List.mem_cons, List.not_mem_nil, or_false] at hmem
    rcases hmem with rfl | rfl | rfl | rfl | rfl | rfl | rfl | rfl | rfl | rfl | rfl | rfl | rfl
      <;> exact absurd h (by decide)
  refine ⟨?_, by rw [sanitizeChar, if_neg hninv]⟩
  by_cases hc : c = '.'
  · subst hc; exact absurd h (by decide)
  · simp [hc]

/-- The sanitised joined components are never all dots: either there are
at least two components and the underscore separator survives
sanitisation, or the only component is the strftime timestamp, whose
characters are digits or underscores. -/
theorem sanitizedBody_not_all_dots (hostname mac username timestamp : List Char)
    (hts : timestamp.all tsChar = true)
    (hne : sanitizeName
      (List.intercalate ['_'] (filenameComponents hostname mac username timestamp)) ≠ []) :
    ((sanitizeName
      (List.intercalate ['_'] (filenameComponents hostname mac username timestamp))).all
        fun c => c == '.') = false := by
  obtain ⟨pre, hpre⟩ : ∃ pre, filenameComponents hostname mac username timestamp
      = pre ++ [timestamp] := ⟨_, rfl⟩
  rw [hpre] at hne ⊢
  cases pre with
  | cons a rest =>
    refine all_dots_false_of_mem _ '_' ?_ (by decide)
    rw [sanitizeName, List.mem_map]
    refine ⟨'_', ?_, by decide⟩
    rw [List.cons_append]
    cases hrl : rest ++ [timestamp] with
    | nil => simp at hrl
    | cons b rest2 => simp [List.intercalate, List.intersperse]
  | nil =>
    rw [List.nil_append] at hne ⊢
    have hsingle : List.intercalate ['_'] [timestamp] = timestamp := by
      simp [List.intercalate, List.intersperse]
    rw [hsingle] at hne ⊢
    cases timestamp with
    | nil => exact absurd rfl hne
    | cons c cs =>
      rw [List.all_cons, Bool.and_eq_true] at hts
      obtain ⟨hdot, hsan⟩ := tsChar_props c hts.1
      refine all_dots_false_of_mem _ c ?_ hdot
      show c ∈ sanitizeChar c :: sanitizeName cs
      rw [hsan]
      exact List.mem_cons_self c _

/-- Claim C1: the capture operation reports success only if the written
image file exists on disk after the write and its size strictly exceeds
the 100-byte minimum; if the encode/write reports success but the file is
missing or at most 100 bytes, that device's result is treated as failure
and the orchestrator advances to the next index. -/
theorem capture_success_requires_verified_file :
    (∀ env : CaptureEnv, (capture env).1 = true →
      ∃ j, j < maxCameras ∧ (env.devs j).writeSuccess = true
        ∧ (env.devs j).fileExists = true ∧ minFileSize < (env.devs j).fileSize
        ∧ (env.devs j).fileExistsAfter = true)
    ∧ (∀ (d : DeviceEnv) (i : Nat),
        d.openExc = none → d.isOpenedExc = none → d.opened = true → d.setExc = none →
        (retryRead d.valReads 3 100 i).1 = true → (retryRead d.capReads 3 50 i).1 = true →
        d.writeExc = none → d.writeSuccess = true →
        (d.fileExists = false ∨ d.fileSize ≤ minFileSize) →
        (deviceCycle d i).1 = CycleRes.fail)
    ∧ (∀ (devs : Nat → DeviceEnv) (n i : Nat),
        (deviceCycle (devs i) i).1 = CycleRes.fail →
        (captureLoopAux devs (n + 1) i).1 = (captureLoopAux devs n (i + 1)).1) := by
  refine ⟨?_, deviceCycle_verifyFail, ?_⟩
  · intro env h
    unfold capture at h
    split at h
    · exact absurd h (by simp)
    · have h2 : (captureLoopAux env.devs maxCameras 0).1 = true := h
      obtain ⟨j, hj0, hj5, hsucc⟩ := loop_true_exists env.devs maxCameras 0 h2
      obtain ⟨hw, hf, hs, ha⟩ := deviceCycle_success_fields (env.devs j) j hsucc
      exact ⟨j, by omega, hw, hf, hs, ha⟩
  · intro devs n i h
    rw [loop_advance devs n i h]

theorem capture_success_requires_verified_file_witness :
    ∃ j, j < maxCameras ∧ (envGoodAt2.devs j).writeSuccess = true
      ∧ (envGoodAt2.devs j).fileExists = true ∧ minFileSize < (envGoodAt2.devs j).fileSize
      ∧ (envGoodAt2.devs j).fileExistsAfter = true :=
  capture_success_requires_verified_file.1 envGoodAt2 (by decide)

/-- Claim C2: with OpenCV available and every one of the five device
indices failing to open, `capture` returns `False`, makes exactly
`max_cameras = 5` open attempts (one per index), and no device handle is
left open afterwards. -/
theorem capture_all_open_fail_exhausts (env : CaptureEnv)
    (hcv : env.cv2Available = true)
    (hfail : ∀ j, j < maxCameras →
      (env.devs j).openExc = none ∧ (env.devs j).isOpenedExc = none
        ∧ (env.devs j).opened = false) :
    (capture env).1 = false ∧ openAttempts (capture env).2 = maxCameras
      ∧ countFrom 0 (capture env).2 = 0 := by
  have hloop := loop_allFail env.devs maxCameras 0 (fun j hj1 hj2 => hfail j (by omega))
  have hcap : capture env =
      ((captureLoopAux env.devs maxCameras 0).1,
        Ev.logEv "INFO" :: (captureLoopAux env.devs maxCameras 0).2) := by
    unfold capture
    rw [hcv]
    rfl
  rw [hcap]
  refine ⟨hloop.1, ?_, hloop.2.2⟩
  simpa [openAttempts, List.countP_cons, isOpenAtt] using hloop.2.1

theorem capture_all_open_fail_exhausts_witness :
    (capture envAllFail).1 = false ∧ openAttempts (capture envAllFail).2 = maxCameras
      ∧ countFrom 0 (capture envAllFail).2 = 0 :=
  capture_all_open_fail_exhausts envAllFail rfl (fun _ _ => ⟨rfl, rfl, rfl⟩)

/-- Claim C3 (code bug): a `MemoryError` raised by `cap.read()` during
the authoritative capture loop lands in the bare `except:` of lines
599-601 and is swallowed as a failed attempt instead of aborting the run:
with device 1 validating and then raising `MemoryError` on every capture
read, the run goes on to probe devices 2, 3 and 4 and ends by exhaustion.
A `MemoryError` raised outside the inner read handlers (here: by the open
call) is fatal as the claim describes. -/
theorem capture_memErr_read_swallowed :
    (capture envMemRead).1 = false
      ∧ Ev.openAttempt 2 ∈ (capture envMemRead).2
      ∧ Ev.openAttempt 3 ∈ (capture envMemRead).2
      ∧ Ev.openAttempt 4 ∈ (capture envMemRead).2
      ∧ (deviceCycle devMemOpen 1).1 = CycleRes.fatal := by
  exact ⟨by decide, by decide, by decide, by decide, by decide⟩

/-- Claim C4: at every point of a run at most one device handle is open;
before every open attempt every previously acquired handle has been
released, and at the end of the run no handle remains open — on every
control path, including the exception paths. -/
theorem capture_single_handle_invariant (env : CaptureEnv) :
    (∀ p s, (capture env).2 = p ++ s → countFrom 0 p ≤ 1)
      ∧ (∀ p i s, (capture env).2 = p ++ Ev.openAttempt i :: s → countFrom 0 p = 0)
      ∧ countFrom 0 (capture env).2 = 0 := by
  obtain ⟨hseg, hz⟩ := capture_handleOk env
  refine ⟨?_, ?_, hz⟩
  · intro p s hp
    rw [hp] at hseg
    exact segOk_le_one p s 0 hseg (by omega)
  · intro p i s hp
    rw [hp] at hseg
    exact segOk_openAtt_zero p s 0 i hseg

theorem capture_single_handle_invariant_witness :
    countFrom 0 (capture envMemAt0).2 = 0
      ∧ countFrom 0 ([] : List Ev) ≤ 1
      ∧ countFrom 0 [Ev.logEv "INFO", Ev.logEv "DEBUG"] = 0 :=
  ⟨(capture_single_handle_invariant envMemAt0).2.2,
    (capture_single_handle_invariant envMemAt0).1 [] (capture envMemAt0).2 rfl,
    (capture_single_handle_invariant envMemAt0).2.1 [Ev.logEv "INFO", Ev.logEv "DEBUG"] 0
      [Ev.logEv "ERROR"] (by decide)⟩

/-- Claim C5: the validation retry loop performs at most `A` read calls
and short-circuits to true on the first good frame; a device whose reads
fail the first `A - 1` times and succeed on attempt `A` is accepted, with
a sleep of the configured delay between failed attempts. `capture`
instantiates the loop at `A = 3` attempts (lines 572-582). -/
theorem validation_retry_spec :
    (∀ (reads : Nat → ReadOutcome) (A ms i : Nat),
        readCount (retryRead reads A ms i).2 ≤ A)
      ∧ (∀ (reads : Nat → ReadOutcome) (A ms i : Nat), 0 < A →
          goodRead (reads 0) = true → retryRead reads A ms i = (true, [Ev.read i]))
      ∧ (∀ (reads : Nat → ReadOutcome) (A ms i : Nat), 0 < A →
          (∀ k, k < A - 1 → goodRead (reads k) = false) →
          goodRead (reads (A - 1)) = true →
          retryRead reads A ms i =
            (true, (List.replicate (A - 1) [Ev.read i, Ev.sleep ms]).flatten
              ++ [Ev.read i])) := by
  refine ⟨?_, retryRead_first, ?_⟩
  · intro reads A ms i
    exact retryReadGo_count reads ms i A 0
  · intro reads A ms i hA hfail hgood
    have h := retryReadGo_lastGood reads ms i A 0 hA
      (fun j hj => by simpa using hfail j hj) (by simpa using hgood)
    exact h

theorem validation_retry_spec_witness :
    retryRead valThirdReads 3 100 0 =
      (true, (List.replicate 2 [Ev.read 0, Ev.sleep 100]).flatten ++ [Ev.read 0]) := by
  have h := validation_retry_spec.2.2 valThirdReads 3 100 0 (by decide)
    (fun k hk => by
      have h2 : k < 2 := by omega
      simp [valThirdReads, h2, goodRead])
    (by decide)
  simpa using h

/-- Claim C6: a device that passes validation but whose authoritative
capture read fails on all attempts is released and abandoned (the cycle
fails with no handle left open) and the orchestrator advances to the
next index — validation success alone never produces a successful run. -/
theorem validated_capture_fail_advances :
    (∀ (d : DeviceEnv) (i : Nat),
        d.openExc = none → d.isOpenedExc = none → d.opened = true → d.setExc = none →
        (retryRead d.valReads 3 100 i).1 = true → (retryRead d.capReads 3 50 i).1 = false →
        (deviceCycle d i).1 = CycleRes.fail ∧ countFrom 0 (deviceCycle d i).2 = 0)
      ∧ (∀ (devs : Nat → DeviceEnv) (n i : Nat),
          (deviceCycle (devs i) i).1 = CycleRes.fail →
          (captureLoopAux devs (n + 1) i).1 = (captureLoopAux devs n (i + 1)).1) := by
  constructor
  · intro d i h1 h2 h3 h4 h5 h6
    exact ⟨deviceCycle_capFail d i h1 h2 h3 h4 h5 h6, deviceCycle_closed d i⟩
  · intro devs n i h
    rw [loop_advance devs n i h]

theorem validated_capture_fail_advances_witness :
    (deviceCycle devCapFail 0).1 = CycleRes.fail
      ∧ countFrom 0 (deviceCycle devCapFail 0).2 = 0 :=
  validated_capture_fail_advances.1 devCapFail 0 rfl rfl rfl rfl (by decide) (by decide)

/-- Claim C7: every non-`MemoryError` exception during a device cycle —
for example a permission error raised by the write call — is caught,
logged, and converted into that device's failure; the loop continues with
the next index, and when no later device succeeds the run ends with
`False` rather than terminating abnormally (end-to-end scenario C,
evaluated on `envWriteErr`). -/
theorem nonfatal_exception_tries_next_device :
    (∀ (d : DeviceEnv) (i : Nat) (e : Exc), d.openExc = some e → e ≠ Exc.memErr →
        (deviceCycle d i).1 = CycleRes.fail ∧ Ev.logEv "ERROR" ∈ (deviceCycle d i).2)
      ∧ (∀ (d : DeviceEnv) (i : Nat) (e : Exc),
          d.openExc = none → d.isOpenedExc = none → d.opened = true → d.setExc = none →
          (retryRead d.valReads 3 100 i).1 = true → (retryRead d.capReads 3 50 i).1 = true →
          d.writeExc = some e →
          (deviceCycle d i).1 = CycleRes.fail ∧ Ev.logEv "ERROR" ∈ (deviceCycle d i).2)
      ∧ (∀ (devs : Nat → DeviceEnv) (n i : Nat),
          (deviceCycle (devs i) i).1 = CycleRes.fail →
          (captureLoopAux devs (n + 1) i).1 = (captureLoopAux devs n (i + 1)).1)
      ∧ ((capture envWriteErr).1 = false ∧ Ev.openAttempt 1 ∈ (capture envWriteErr).2) := by
  refine ⟨deviceCycle_openExc, ?_, ?_, by decide, by decide⟩
  · intro d i e h1 h2 h3 h4 h5 h6 h7
    exact deviceCycle_writeExc d i e h1 h2 h3 h4 h5 h6 h7
  · intro devs n i h
    rw [loop_advance devs n i h]

theorem nonfatal_exception_tries_next_device_witness :
    (deviceCycle devOpenErr 0).1 = CycleRes.fail
      ∧ Ev.logEv "ERROR" ∈ (deviceCycle devOpenErr 0).2 :=
  nonfatal_exception_tries_next_device.1 devOpenErr 0 Exc.otherErr rfl (by decide)

/-- Claim C8: the release operation is idempotent and never propagates an
error (it is the total function closing the handle), and the success path
of `capture` — the explicit release of line 631 followed by the
unconditional release of the `finally` block — performs the double
release with no net resource effect. -/
theorem release_idempotent_no_error :
    (∀ h : Bool, releaseDev (releaseDev h) = releaseDev h)
      ∧ (∀ h : Bool, releaseDev h = false)
      ∧ (∀ (d : DeviceEnv) (i : Nat), (deviceCycle d i).1 = CycleRes.success →
          2 ≤ releaseCount i (deviceCycle d i).2 ∧ countFrom 0 (deviceCycle d i).2 = 0) :=
  ⟨fun _ => rfl, fun _ => rfl,
    fun d i h => ⟨deviceCycle_success_two_releases d i h, deviceCycle_closed d i⟩⟩

theorem release_idempotent_no_error_witness :
    2 ≤ releaseCount 0 (deviceCycle devGood 0).2
      ∧ countFrom 0 (deviceCycle devGood 0).2 = 0 :=
  release_idempotent_no_error.2.2 devGood 0 (by decide)

/-- Claim C9 (counterexample): the sanitisation loop of lines 519-521
replaces only `< > : " / \\ | ? *`, newline, carriage return, tab and
NUL; any other control character — here `\x01` in the hostname —
survives into the generated filename, so the filename is not free of
control characters. -/
theorem filename_control_char_counterexample :
    '\x01' ∈ generateFilenameChars "a\x01b".data "unknown-mac".data "unknown_user".data
        "20240101_120000_000".data
      ∧ isCtrlChar '\x01' = true :=
  ⟨by decide, by decide⟩

/-- Claim C9 (amended): for every combination of identity lookups and
the strftime timestamp, the generated filename contains none of the
characters of the sanitisation list — in particular no `/` or `\\` path
separator and none of the control characters NUL, TAB, LF, CR — ends in
`.jpg`, and is at most 200 characters long. Control characters outside
the sanitisation list are not removed. -/
theorem filename_generation_contract (hostname mac username timestamp : List Char)
    (hts : timestamp.all tsChar = true) :
    (∀ c, c ∈ generateFilenameChars hostname mac username timestamp → c ∉ invalidChars)
      ∧ List.IsSuffix jpgExt (generateFilenameChars hostname mac username timestamp)
      ∧ (generateFilenameChars hostname mac username timestamp).length ≤ 200 := by
  have hmemraw : ∀ c, c ∈ rawFilename hostname mac username timestamp → c ∉ invalidChars := by
    intro c hc
    rw [rawFilename] at hc
    exact mem_sanitizeName_not_invalid _ c hc
  rw [generateFilenameChars]
  by_cases hlen : 200 < (rawFilename hostname mac username timestamp).length
  · rw [if_pos hlen]
    have hraw := rawFilename_eq hostname mac username timestamp
    have hne : sanitizeName (List.intercalate ['_']
        (filenameComponents hostname mac username timestamp)) ≠ [] := by
      intro h0
      rw [hraw, h0, List.nil_append] at hlen
      exact absurd hlen (by decide)
    have hdots := sanitizedBody_not_all_dots hostname mac username timestamp hts hne
    have hsplit : splitextChars (rawFilename hostname mac username timestamp) =
        (sanitizeName (List.intercalate ['_']
          (filenameComponents hostname mac username timestamp)), jpgExt) := by
      rw [hraw]
      exact splitextChars_jpg _ hdots
    have hgen : (splitextChars (rawFilename hostname mac username timestamp)).1.take
          (200 - (splitextChars (rawFilename hostname mac username timestamp)).2.length)
        ++ (splitextChars (rawFilename hostname mac username timestamp)).2
        = (sanitizeName (List.intercalate ['_']
            (filenameComponents hostname mac username timestamp))).take 196 ++ jpgExt := by
      rw [hsplit]
      rfl
    rw [hgen]
    refine ⟨?_, ⟨_, rfl⟩, ?_⟩
    · intro c hc
      rw [List.mem_append] at hc
      rcases hc with hc | hc
      · exact mem_sanitizeName_not_invalid _ c (List.mem_of_mem_take hc)
      · simp only [jpgExt, List.mem_cons, List.not_mem_nil, or_false] at hc
        rcases hc with rfl | rfl | rfl | rfl <;> decide
    · rw [List.length_append, List.length_take]
      have h4 : jpgExt.length = 4 := rfl
      rw [h4]
      have hmin := Nat.min_le_left 196
        (sanitizeName (List.intercalate ['_']
          (filenameComponents hostname mac username timestamp))).length
      omega
  · rw [if_neg hlen]
    refine ⟨hmemraw, ?_, by omega⟩
    rw [rawFilename_eq]
    exact ⟨_, rfl⟩

theorem filename_generation_contract_witness :
    List.IsSuffix jpgExt (generateFilenameChars "myhost".data "aa-bb-cc-dd-ee-ff".data
        "alice".data "20240101_120000_000".data)
      ∧ (generateFilenameChars "myhost".data "aa-bb-cc-dd-ee-ff".data "alice".data
          "20240101_120000_000".data).length ≤ 200 :=
  (filename_generation_contract "myhost".data "aa-bb-cc-dd-ee-ff".data "alice".data
      "20240101_120000_000".data (by decide)).2

/-- Claim C10: when OpenCV is unavailable at capture time, `capture` logs
and returns `False` immediately with zero device open attempts, so the
exactly-five-open-attempts behaviour holds only when the library is
available (contrast on `envAllFail`). -/
theorem capture_without_cv2_zero_attempts :
    (∀ devs : Nat → DeviceEnv, (capture ⟨false, devs⟩).1 = false
        ∧ openAttempts (capture ⟨false, devs⟩).2 = 0)
      ∧ ((capture envAllFail).1 = false ∧ openAttempts (capture envAllFail).2 = maxCameras) :=
  ⟨fun devs => ⟨rfl, rfl⟩, by decide, by decide⟩

end CamCap
